import Mathlib

/-!
Shallow embedding of the multi-agent editorial pipeline
(`src/agents/*.py`, `src/shared/models.py`, `src/shared/constants.py`).

Modelling conventions:
* machine text is `String`, Python `dict.get(k, d)` on message payloads is an
  `Option` field read with `getD`;
* the external generation service (`shared/ollama_client.generate`) is a
  deterministic oracle `gen : String → String` from the prompt text to the
  generated text (timing/usage accounting is observational and elided);
* observational fields with no control-flow effect (metrics lists, token
  totals, timestamps, message ids) are elided from the data model;
* free-text log detail strings (`log_activity` second argument) are elided:
  an activity effect records the agent, the activity action name and the
  story id, which is all any property below depends on;
* side effects of a handler (Elasticsearch saves, Redis enqueues, logs) are
  reified as an ordered `List Effect`.
-/

namespace Multiagent

/-- Queue name from `shared/constants.py`. -/
def QUEUE_ORCHESTRATOR : String := "queue:orchestrator"

/-- Queue name from `shared/constants.py`. -/
def QUEUE_PROMPT_GENERATOR : String := "queue:prompt_generator"

/-- Queue name from `shared/constants.py`. -/
def QUEUE_WRITER : String := "queue:writer"

/-- Queue name from `shared/constants.py`. -/
def QUEUE_REVIEWER : String := "queue:reviewer"

/-- Queue name from `shared/constants.py`. -/
def QUEUE_EDITOR : String := "queue:editor"

/-- Queue name from `shared/constants.py`. -/
def QUEUE_COVER_DESIGNER : String := "queue:cover_designer"

/-- Action name from `shared/constants.py`. -/
def ACTION_START_NEW_STORY : String := "start_new_story"

/-- Action name from `shared/constants.py`. -/
def ACTION_GENERATE_PROMPT : String := "generate_prompt"

/-- Action name from `shared/constants.py`. -/
def ACTION_PROMPT_READY : String := "prompt_ready"

/-- Action name from `shared/constants.py`. -/
def ACTION_WRITE_DRAFT : String := "write_draft"

/-- Action name from `shared/constants.py`. -/
def ACTION_DRAFT_READY : String := "draft_ready"

/-- Action name from `shared/constants.py`. -/
def ACTION_REVIEW : String := "review"

/-- Action name from `shared/constants.py`. -/
def ACTION_REVIEW_COMPLETE : String := "review_complete"

/-- Action name from `shared/constants.py`. -/
def ACTION_EDIT : String := "edit"

/-- Action name from `shared/constants.py`. -/
def ACTION_EDIT_COMPLETE : String := "edit_complete"

/-- Action name from `shared/constants.py`. -/
def ACTION_REVISE : String := "revise"

/-- Action name from `shared/constants.py`. -/
def ACTION_REVISION_READY : String := "revision_ready"

/-- Action name from `shared/constants.py`. -/
def ACTION_DESIGN_COVER : String := "design_cover"

/-- Action name from `shared/constants.py`. -/
def ACTION_COVER_READY : String := "cover_ready"

/-- Story statuses, from `shared/models.py` `StoryStatus`. -/
inductive StoryStatus where
  | QUEUED
  | PROMPT_CREATED
  | DRAFT_WRITTEN
  | IN_REVIEW
  | REVISION_NEEDED
  | REVISED
  | APPROVED
  | DESIGNING_COVER
  | PUBLISHED
  deriving DecidableEq, Repr

/-- Writing prompt, from `shared/models.py` `WritingPrompt`. -/
structure WritingPrompt where
  genre : String
  theme : String
  setting : String
  characters : String
  target_word_count : Nat
  additional_instructions : String := ""
  deriving DecidableEq, Repr

/-- Feedback entry, from `shared/models.py` `FeedbackItem` (timestamp elided). -/
structure FeedbackItem where
  agent : String
  round_number : Nat
  feedback : String
  approved : Bool := false
  deriving DecidableEq, Repr

/-- Revision entry, from `shared/models.py` `Revision` (timestamp elided). -/
structure Revision where
  round_number : Nat
  content : String
  feedback_addressed : String := ""
  deriving DecidableEq, Repr

/-- Story aggregate, from `shared/models.py` `Story` (metrics, token totals and
timestamps elided: they are appended-to/refreshed on saves but never read by
any control-flow decision). -/
structure Story where
  story_id : String := ""
  title : String := ""
  model : String := ""
  status : StoryStatus := StoryStatus.PROMPT_CREATED
  prompt : Option WritingPrompt := none
  current_draft : String := ""
  revisions : List Revision := []
  feedback : List FeedbackItem := []
  revision_count : Nat := 0
  max_revisions : Nat := 3
  cover_svg : String := ""
  deriving DecidableEq, Repr

/-- Message payload: the string-keyed `payload` dict of
`shared/models.py` `AgentMessage`, restricted to the keys any agent in
`src/agents/` reads or writes. A missing key is `none`; `payload.get(k, d)`
becomes `getD`. -/
structure Payload where
  round_number : Option Nat := none
  approved : Option Bool := none
  feedback : Option String := none
  feedback_summary : Option String := none
  user_prompt : Option String := none
  model : Option String := none
  genre : Option String := none
  theme : Option String := none
  deriving DecidableEq, Repr

/-- Message envelope, from `shared/models.py` `AgentMessage`
(message id and timestamp elided). -/
structure AgentMessage where
  story_id : String := ""
  action : String
  payload : Payload := {}
  source : String := ""
  target : String := ""
  deriving DecidableEq, Repr

/-- Reified side effect of handling one message: a structured error log, a
warning log, an activity record (`BaseAgent.log_activity`, detail text
elided), an enqueue (`shared/redis_client.enqueue_message`) or a Document
Store save (`shared/elasticsearch_client.save_story`). -/
inductive Effect where
  | logError (event : String) (story_id : String)
  | logWarning (event : String) (action : String)
  | activity (agent : String) (action : String) (story_id : String)
  | enqueue (queue : String) (msg : AgentMessage)
  | save (story : Story)
  deriving DecidableEq, Repr

/-- Document Store read model: `shared/elasticsearch_client.get_story`
returns the story stored under an id, or nothing. -/
def Store : Type := String → Option Story

/-- Lookup in the Document Store (`get_story`). -/
def get_story (store : Store) (story_id : String) : Option Story :=
  store story_id

/-- Pipeline configuration consumed by the agents
(`config["pipeline"]`): `review_mode` is read with
`.get("review_mode", "sequential")`, `max_revisions` is read directly. -/
structure Config where
  review_mode : Option String := none
  max_revisions : Nat := 3
  deriving DecidableEq, Repr

/-- Effective review mode: `self.config["pipeline"].get("review_mode", "sequential")`. -/
def Config.reviewMode (cfg : Config) : String :=
  cfg.review_mode.getD "sequential"

/-- The two roles the parallel-mode join dict is keyed by
(`agent_type` is only ever the literal "reviewer" or "editor"). -/
inductive Role where
  | reviewer
  | editor
  deriving DecidableEq, Repr

/-- One entry of the orchestrator's `_pending_feedback` join dict:
the inner per-story dict with optional "reviewer" / "editor" payloads. -/
structure Pending where
  reviewer : Option Payload := none
  editor : Option Payload := none
  deriving DecidableEq, Repr

/-- Write one role slot of a join entry
(`self._pending_feedback[story_id][agent_type] = message.payload`). -/
def Pending.set (entry : Pending) (role : Role) (p : Payload) : Pending :=
  match role with
  | Role.reviewer => { entry with reviewer := some p }
  | Role.editor => { entry with editor := some p }

/-- The orchestrator's in-memory `_pending_feedback` map, keyed by story id;
`none` means the key is absent. -/
def PendingMap : Type := String → Option Pending

/-- Point update of the join map (dict item assignment / deletion). -/
def updateMap (m : PendingMap) (story_id : String) (v : Option Pending) : PendingMap :=
  fun s => if s = story_id then v else m s

/-- Python `f"{b}"` rendering of a bool. -/
def pyBool (b : Bool) : String :=
  if b then "True" else "False"

/-- Effects of `EditorInChiefAgent._send_for_cover_design`. -/
def sendForCoverDesign (story : Story) : List Effect :=
  [ Effect.activity "orchestrator" "sending_for_cover" story.story_id,
    Effect.save { story with status := StoryStatus.DESIGNING_COVER },
    Effect.enqueue QUEUE_COVER_DESIGNER
      { story_id := story.story_id, action := ACTION_DESIGN_COVER,
        payload := {}, source := "orchestrator", target := "cover_designer" } ]

/-- Decision logic of `EditorInChiefAgent._evaluate_and_decide`: approve and
hand off to cover design when both flags are set or the round number has
reached `max_revisions`; otherwise summarize the feedback via the generation
oracle, persist `REVISION_NEEDED` and enqueue a revise message. -/
def evaluateAndDecide (gen : String → String) (story : Story)
    (reviewer_approved : Bool) (editor_approved : Bool)
    (reviewer_feedback : String) (editor_feedback : String)
    (round_number : Nat) : List Effect :=
  if reviewer_approved && editor_approved then
    Effect.activity "orchestrator" "story_approved" story.story_id ::
    Effect.save { story with status := StoryStatus.APPROVED } ::
    sendForCoverDesign { story with status := StoryStatus.APPROVED }
  else if story.max_revisions ≤ round_number then
    Effect.activity "orchestrator" "max_revisions_reached" story.story_id ::
    Effect.save { story with status := StoryStatus.APPROVED } ::
    sendForCoverDesign { story with status := StoryStatus.APPROVED }
  else
    let eval_prompt :=
      "Reviewer feedback:\n" ++ reviewer_feedback ++ "\n\n" ++
      "Editor feedback:\n" ++ editor_feedback ++ "\n\n" ++
      "Reviewer approved: " ++ pyBool reviewer_approved ++ "\n" ++
      "Editor approved: " ++ pyBool editor_approved ++ "\n\n" ++
      "Summarize the top priority fixes for the writer. Be concise."
    let summary := gen eval_prompt
    [ Effect.activity "orchestrator" "revision_needed" story.story_id,
      Effect.save { story with status := StoryStatus.REVISION_NEEDED },
      Effect.enqueue QUEUE_WRITER
        { story_id := story.story_id, action := ACTION_REVISE,
          payload := { round_number := some round_number,
                       feedback_summary := some summary },
          source := "orchestrator", target := "writer" } ]

/-- Effects and join-map update of `EditorInChiefAgent._send_for_review`:
parallel mode resets the join entry and fans out to reviewer and editor,
sequential mode sends only to the reviewer. -/
def sendForReview (cfg : Config) (pend : PendingMap)
    (story_id : String) (round_number : Nat) : PendingMap × List Effect :=
  let act := Effect.activity "orchestrator" "sending_for_review" story_id
  if cfg.reviewMode = "parallel" then
    (updateMap pend story_id (some {}),
     [ act,
       Effect.enqueue QUEUE_REVIEWER
         { story_id := story_id, action := ACTION_REVIEW,
           payload := { round_number := some round_number },
           source := "orchestrator", target := "reviewer" },
       Effect.enqueue QUEUE_EDITOR
         { story_id := story_id, action := ACTION_EDIT,
           payload := { round_number := some round_number },
           source := "orchestrator", target := "editor" } ])
  else
    (pend,
     [ act,
       Effect.enqueue QUEUE_REVIEWER
         { story_id := story_id, action := ACTION_REVIEW,
           payload := { round_number := some round_number },
           source := "orchestrator", target := "reviewer" } ])

/-- Effects of `EditorInChiefAgent._handle_start_new_story`; `fresh` stands
for the `uuid.uuid4().hex[:12]` fallback id used when the message carries an
empty story id. -/
def handleStartNewStory (fresh : String) (msg : AgentMessage) : List Effect :=
  let story_id := if msg.story_id = "" then fresh else msg.story_id
  let user_prompt := msg.payload.user_prompt.getD ""
  let model := msg.payload.model.getD ""
  let payload : Payload :=
    { user_prompt := if user_prompt = "" then none else some user_prompt,
      model := if model = "" then none else some model }
  [ Effect.activity "orchestrator" "starting_story" story_id,
    Effect.enqueue QUEUE_PROMPT_GENERATOR
      { story_id := story_id, action := ACTION_GENERATE_PROMPT,
        payload := payload, source := "orchestrator",
        target := "prompt_generator" } ]

/-- Effects of `EditorInChiefAgent._handle_prompt_ready`. -/
def handlePromptReady (msg : AgentMessage) : List Effect :=
  [ Effect.activity "orchestrator" "prompt_received" msg.story_id,
    Effect.enqueue QUEUE_WRITER
      { story_id := msg.story_id, action := ACTION_WRITE_DRAFT,
        payload := {}, source := "orchestrator", target := "writer" } ]

/-- Effects of `EditorInChiefAgent._handle_draft_ready`: load the story
(drop with an error log when absent), persist `IN_REVIEW`, start a review
round numbered `revision_count + 1`. -/
def handleDraftReady (cfg : Config) (store : Store) (pend : PendingMap)
    (msg : AgentMessage) : PendingMap × List Effect :=
  match get_story store msg.story_id with
  | none => (pend, [Effect.logError "story_not_found" msg.story_id])
  | some story =>
    let round_number := story.revision_count + 1
    let r := sendForReview cfg pend msg.story_id round_number
    (r.1, Effect.save { story with status := StoryStatus.IN_REVIEW } :: r.2)

/-- Effects of `EditorInChiefAgent._handle_revision_ready`: like draft
handling but the round is `payload.get("round_number", revision_count) + 1`. -/
def handleRevisionReady (cfg : Config) (store : Store) (pend : PendingMap)
    (msg : AgentMessage) : PendingMap × List Effect :=
  match get_story store msg.story_id with
  | none => (pend, [Effect.logError "story_not_found" msg.story_id])
  | some story =>
    let round_number := msg.payload.round_number.getD story.revision_count + 1
    let r := sendForReview cfg pend msg.story_id round_number
    (r.1, Effect.save { story with status := StoryStatus.IN_REVIEW } :: r.2)

/-- Core of `EditorInChiefAgent._handle_parallel_feedback`: record the
arriving role's payload in the join entry; when the other role is still
missing, log and wait; when both are present, load the story (silently
dropping when absent, the entry then remains), evaluate, and delete the
entry. -/
def handleParallelFeedback (gen : String → String) (store : Store)
    (pend : PendingMap) (msg : AgentMessage) (role : Role) :
    PendingMap × List Effect :=
  let sid := msg.story_id
  let entry := ((pend sid).getD {}).set role msg.payload
  let pend1 := updateMap pend sid (some entry)
  match entry.reviewer, entry.editor with
  | some rp, some ep =>
    (match get_story store sid with
     | none => (pend1, [])
     | some story =>
       let round_number := msg.payload.round_number.getD 1
       (updateMap pend1 sid none,
        evaluateAndDecide gen story (rp.approved.getD false)
          (ep.approved.getD false) (rp.feedback.getD "")
          (ep.feedback.getD "") round_number))
  | _, _ => (pend1, [Effect.activity "orchestrator" "waiting_for_feedback" sid])

/-- Effects of `EditorInChiefAgent._handle_review_complete`: parallel mode
fans in as "reviewer", sequential mode forwards the same round to the
editor. -/
def handleReviewComplete (cfg : Config) (gen : String → String)
    (store : Store) (pend : PendingMap) (msg : AgentMessage) :
    PendingMap × List Effect :=
  if cfg.reviewMode = "parallel" then
    handleParallelFeedback gen store pend msg Role.reviewer
  else
    (pend,
     [ Effect.activity "orchestrator" "review_received" msg.story_id,
       Effect.enqueue QUEUE_EDITOR
         { story_id := msg.story_id, action := ACTION_EDIT,
           payload := { round_number := some (msg.payload.round_number.getD 1) },
           source := "orchestrator", target := "editor" } ])

/-- Effects of `EditorInChiefAgent._handle_edit_complete`: parallel mode fans
in as "editor"; sequential mode loads the story (returning silently, with no
log, when absent), reads both feedback items of the round back from the
persisted story and evaluates. -/
def handleEditComplete (cfg : Config) (gen : String → String)
    (store : Store) (pend : PendingMap) (msg : AgentMessage) :
    PendingMap × List Effect :=
  if cfg.reviewMode = "parallel" then
    handleParallelFeedback gen store pend msg Role.editor
  else
    match get_story store msg.story_id with
    | none => (pend, [])
    | some story =>
      let round_number := msg.payload.round_number.getD 1
      let round_feedback :=
        story.feedback.filter (fun f => f.round_number == round_number)
      let reviewer_fb := round_feedback.find? (fun f => f.agent == "reviewer")
      let editor_fb := round_feedback.find? (fun f => f.agent == "editor")
      (pend,
       evaluateAndDecide gen story
         ((reviewer_fb.map (fun f => f.approved)).getD false)
         ((editor_fb.map (fun f => f.approved)).getD false)
         ((reviewer_fb.map (fun f => f.feedback)).getD "")
         ((editor_fb.map (fun f => f.feedback)).getD "")
         round_number)

/-- Effects of `EditorInChiefAgent._publish_story`. -/
def publishStory (story : Story) : List Effect :=
  [ Effect.save { story with status := StoryStatus.PUBLISHED },
    Effect.activity "orchestrator" "story_published" story.story_id ]

/-- Effects of `EditorInChiefAgent._handle_cover_ready`. -/
def handleCoverReady (store : Store) (msg : AgentMessage) : List Effect :=
  match get_story store msg.story_id with
  | none => [Effect.logError "story_not_found" msg.story_id]
  | some story =>
    Effect.activity "orchestrator" "cover_received" msg.story_id ::
    publishStory story

/-- Dispatch of `EditorInChiefAgent.handle_message`: route by action string,
log a warning and drop anything not in the handler table. -/
def orchestratorHandle (cfg : Config) (gen : String → String) (fresh : String)
    (store : Store) (pend : PendingMap) (msg : AgentMessage) :
    PendingMap × List Effect :=
  if msg.action = ACTION_START_NEW_STORY then (pend, handleStartNewStory fresh msg)
  else if msg.action = ACTION_PROMPT_READY then (pend, handlePromptReady msg)
  else if msg.action = ACTION_DRAFT_READY then handleDraftReady cfg store pend msg
  else if msg.action = ACTION_REVIEW_COMPLETE then handleReviewComplete cfg gen store pend msg
  else if msg.action = ACTION_EDIT_COMPLETE then handleEditComplete cfg gen store pend msg
  else if msg.action = ACTION_REVISION_READY then handleRevisionReady cfg store pend msg
  else if msg.action = ACTION_COVER_READY then (pend, handleCoverReady store msg)
  else (pend, [Effect.logWarning "unknown_action" msg.action])

/-- Python `str.upper()` restricted to the ASCII range (the substring probe
below is pure ASCII): uppercase every character. -/
def pyUpper (s : String) : String :=
  String.mk (s.data.map Char.toUpper)

/-- Python substring containment `pat in s` on character lists. -/
def hasSubstr (pat : List Char) : List Char → Bool
  | [] => pat.isEmpty
  | c :: rest => pat.isPrefixOf (c :: rest) || hasSubstr pat rest

/-- Approval probe shared by reviewer and editor:
`"APPROVED: YES" in feedback_text.upper()`. -/
def containsApproved (text : String) : Bool :=
  hasSubstr ("APPROVED: YES".data) ((pyUpper text).data)

/-- Python `str.strip(chars)` on a character list: drop matching characters
from both ends. -/
def stripWhile (p : Char → Bool) (l : List Char) : List Char :=
  ((l.dropWhile p).reverse.dropWhile p).reverse

/-- Python `str.title()` over the ASCII range: uppercase a letter that
follows a non-letter, lowercase a letter that follows a letter. -/
def pyTitleAux : Bool → List Char → List Char
  | _, [] => []
  | prevAlpha, c :: rest =>
    (if c.isAlpha then (if prevAlpha then c.toLower else c.toUpper) else c) ::
    pyTitleAux c.isAlpha rest

/-- Python `str.title()` wrapper on strings. -/
def pyTitle (s : String) : String :=
  String.mk (pyTitleAux false s.data)

/-- Title heuristic of `WriterAgent._extract_title`: strip the first line,
remove leading `#` markers and surrounding quotes/asterisks, keep it when its
length is strictly between 2 and 80, otherwise fall back to a genre-derived
placeholder. -/
def extractTitle (draft : String) (genre : String) : String :=
  let first_line :=
    stripWhile Char.isWhitespace
      ((stripWhile Char.isWhitespace draft.data).takeWhile (fun c => c ≠ '\n'))
  let cleaned :=
    stripWhile (fun c => c = '*')
      (stripWhile (fun c => c = '"')
        (stripWhile Char.isWhitespace (first_line.dropWhile (fun c => c = '#'))))
  if 2 < cleaned.length ∧ cleaned.length < 80 then String.mk cleaned
  else "Untitled " ++ pyTitle (genre.replace "_" " ") ++ " Story"

/-- Effects of `WriterAgent._write_draft`: load the story (error-log and drop
when the story or its prompt is absent), generate the draft, persist it with
an extracted title and status `DRAFT_WRITTEN`, notify the orchestrator. -/
def writeDraft (gen : String → String) (store : Store)
    (msg : AgentMessage) : List Effect :=
  let sid := msg.story_id
  let act0 := Effect.activity "writer" "writing_draft" sid
  match get_story store sid with
  | none => [act0, Effect.logError "story_not_found" sid]
  | some story =>
    match story.prompt with
    | none => [act0, Effect.logError "story_not_found" sid]
    | some prompt =>
      let user_prompt :=
        "Write a " ++ prompt.genre ++ " short story based on this prompt:\n\n" ++
        prompt.setting ++ "\n\n" ++
        "Target word count: " ++ toString prompt.target_word_count ++ "\n"
      let text := gen user_prompt
      let story1 := { story with
        current_draft := text,
        title := extractTitle text prompt.genre,
        status := StoryStatus.DRAFT_WRITTEN }
      [ act0, Effect.save story1,
        Effect.activity "writer" "draft_written" sid,
        Effect.enqueue QUEUE_ORCHESTRATOR
          { story_id := sid, action := ACTION_DRAFT_READY,
            payload := {}, source := "writer", target := "orchestrator" } ]

/-- Effects of `WriterAgent._revise`: load the story (error-log and drop when
absent), generate the revised text, append a `Revision`, overwrite the draft,
set `revision_count` to the message's round number, persist with status
`REVISED`, and emit `revision_ready` carrying the same round number. -/
def writerRevise (gen : String → String) (store : Store)
    (msg : AgentMessage) : List Effect :=
  let sid := msg.story_id
  let feedback_summary := msg.payload.feedback_summary.getD ""
  let round_number := msg.payload.round_number.getD 1
  let act0 := Effect.activity "writer" "revising" sid
  match get_story store sid with
  | none => [act0, Effect.logError "story_not_found" sid]
  | some story =>
    let user_prompt :=
      "Here is your current draft:\n\n" ++ story.current_draft ++ "\n\n" ++
      "Please revise it based on this feedback:\n\n" ++ feedback_summary ++
      "\n\n" ++ "This is revision round " ++ toString round_number ++
      ". Focus on the priority fixes."
    let text := gen user_prompt
    let story1 := { story with
      revisions := story.revisions ++
        [{ round_number := round_number, content := text,
           feedback_addressed := feedback_summary }],
      current_draft := text,
      revision_count := round_number,
      status := StoryStatus.REVISED }
    [ act0, Effect.save story1,
      Effect.activity "writer" "revision_complete" sid,
      Effect.enqueue QUEUE_ORCHESTRATOR
        { story_id := sid, action := ACTION_REVISION_READY,
          payload := { round_number := some round_number },
          source := "writer", target := "orchestrator" } ]

/-- Dispatch of `WriterAgent.handle_message`. -/
def writerHandle (gen : String → String) (store : Store)
    (msg : AgentMessage) : List Effect :=
  if msg.action = ACTION_WRITE_DRAFT then writeDraft gen store msg
  else if msg.action = ACTION_REVISE then writerRevise gen store msg
  else [Effect.logWarning "unknown_action" msg.action]

/-- Effects of `ReviewerAgent.handle_message`: a `review` message loads the
story (error-log and drop when absent), generates feedback, marks approval by
the `"APPROVED: YES"` probe on the uppercased text, appends the feedback
item, persists, and reports `review_complete` with the round, flag and text.
Any other action is warned about and dropped. -/
def reviewerHandle (gen : String → String) (store : Store)
    (msg : AgentMessage) : List Effect :=
  if msg.action ≠ ACTION_REVIEW then
    [Effect.logWarning "unknown_action" msg.action]
  else
    let sid := msg.story_id
    let round_number := msg.payload.round_number.getD 1
    let act0 := Effect.activity "reviewer" "reviewing" sid
    match get_story store sid with
    | none => [act0, Effect.logError "story_not_found" sid]
    | some story =>
      let user_prompt :=
        "Review this " ++
        (match story.prompt with | some p => p.genre | none => "") ++
        " short story:\n\n" ++ story.current_draft ++ "\n\n" ++
        "Original prompt:\n" ++
        (match story.prompt with | some p => p.setting | none => "N/A") ++ "\n"
      let feedback_text := gen user_prompt
      let approved := containsApproved feedback_text
      let story1 := { story with
        feedback := story.feedback ++
          [{ agent := "reviewer", round_number := round_number,
             feedback := feedback_text, approved := approved }] }
      [ act0, Effect.save story1,
        Effect.activity "reviewer" "review_complete" sid,
        Effect.enqueue QUEUE_ORCHESTRATOR
          { story_id := sid, action := ACTION_REVIEW_COMPLETE,
            payload := { round_number := some round_number,
                         approved := some approved,
                         feedback := some feedback_text },
            source := "reviewer", target := "orchestrator" } ]

/-- Effects of `EditorAgent.handle_message`, the editor-side mirror of the
reviewer: same load/generate/probe/append/persist/report shape with the
`edit` action, the "editor" role and `edit_complete` reporting. -/
def editorHandle (gen : String → String) (store : Store)
    (msg : AgentMessage) : List Effect :=
  if msg.action ≠ ACTION_EDIT then
    [Effect.logWarning "unknown_action" msg.action]
  else
    let sid := msg.story_id
    let round_number := msg.payload.round_number.getD 1
    let act0 := Effect.activity "editor" "editing" sid
    match get_story store sid with
    | none => [act0, Effect.logError "story_not_found" sid]
    | some story =>
      let user_prompt :=
        "Edit this " ++
        (match story.prompt with | some p => p.genre | none => "") ++
        " short story for line-level quality:\n\n" ++
        story.current_draft ++ "\n"
      let feedback_text := gen user_prompt
      let approved := containsApproved feedback_text
      let story1 := { story with
        feedback := story.feedback ++
          [{ agent := "editor", round_number := round_number,
             feedback := feedback_text, approved := approved }] }
      [ act0, Effect.save story1,
        Effect.activity "editor" "edit_complete" sid,
        Effect.enqueue QUEUE_ORCHESTRATOR
          { story_id := sid, action := ACTION_EDIT_COMPLETE,
            payload := { round_number := some round_number,
                         approved := some approved,
                         feedback := some feedback_text },
            source := "editor", target := "orchestrator" } ]

/-- Effects of `PromptGeneratorAgent.handle_message`: the random genre pick,
theme pick and target word count drawn from the external genres config file
are passed in as nondeterministic parameters; a fresh `Story` is created with
`revision_count` 0 (model default) and `max_revisions` from the pipeline
config, persisted, and `prompt_ready` is reported. -/
def promptGenHandle (cfg : Config) (gen : String → String)
    (genreName : String) (genreDesc : String) (theme : String) (twc : Nat)
    (msg : AgentMessage) : List Effect :=
  if msg.action ≠ ACTION_GENERATE_PROMPT then
    [Effect.logWarning "unknown_action" msg.action]
  else
    let sid := msg.story_id
    let user_idea := msg.payload.user_prompt.getD ""
    let user_prompt :=
      if user_idea ≠ "" then
        "A user has requested a story with this idea:\n\n" ++
        "\x22" ++ user_idea ++ "\x22\n\n" ++
        "Target word count: " ++ toString twc ++ "\n\n" ++
        "Build a detailed writing prompt around the user\x27s idea. " ++
        "Pick the most fitting genre and tone from the idea."
      else
        "Genre: " ++ genreName ++ "\n" ++
        "Genre description: " ++ genreDesc ++ "\n" ++
        "Theme: " ++ theme ++ "\n" ++
        "Target word count: " ++ toString twc ++ "\n\n" ++
        "Generate a detailed writing prompt for a short story."
    let setting := gen user_prompt
    let story : Story :=
      { story_id := sid,
        status := StoryStatus.PROMPT_CREATED,
        prompt := some
          { genre := genreName, theme := theme, setting := setting,
            characters := "", target_word_count := twc,
            additional_instructions := "" },
        max_revisions := cfg.max_revisions }
    [ Effect.activity "prompt_generator" "generating_prompt" sid,
      Effect.save story,
      Effect.activity "prompt_generator" "prompt_generated" sid,
      Effect.enqueue QUEUE_ORCHESTRATOR
        { story_id := sid, action := ACTION_PROMPT_READY,
          payload := { genre := some genreName, theme := some theme },
          source := "prompt_generator", target := "orchestrator" } ]

/-- Python `str.split()` without arguments: whitespace-separated words. -/
def pyWords (s : String) : List String :=
  (s.split (fun c => c.isWhitespace)).filter (fun w => w ≠ "")

/-- Effects of `CoverDesignerAgent.handle_message`: load the story (error-log
and drop when absent), generate a cover, run the SVG extraction/sanitization
(regex plus `sanitize_svg`, abstracted as the oracle `extractSvg`), persist
the cover with status `DESIGNING_COVER`, and report `cover_ready`. -/
def coverHandle (gen : String → String) (extractSvg : String → String)
    (store : Store) (msg : AgentMessage) : List Effect :=
  if msg.action ≠ ACTION_DESIGN_COVER then
    [Effect.logWarning "unknown_action" msg.action]
  else
    let sid := msg.story_id
    let act0 := Effect.activity "cover_designer" "designing_cover" sid
    match get_story store sid with
    | none => [act0, Effect.logError "story_not_found" sid]
    | some story =>
      let title := if story.title = "" then "Untitled" else story.title
      let genre := match story.prompt with | some p => p.genre | none => "fiction"
      let theme := match story.prompt with | some p => p.theme | none => ""
      let draft_words := pyWords story.current_draft
      let synopsis :=
        String.intercalate " " (draft_words.take 200) ++
        (if 200 < draft_words.length then "..." else "")
      let user_prompt :=
        "Design an SVG book cover for:\n\n" ++
        "Title: " ++ title ++ "\n" ++
        "Genre: " ++ genre ++ "\n" ++
        "Theme: " ++ theme ++ "\n" ++
        "Synopsis: " ++ synopsis ++ "\n"
      let svg := extractSvg (gen user_prompt)
      let story1 := { story with
        cover_svg := svg, status := StoryStatus.DESIGNING_COVER }
      [ act0, Effect.save story1,
        Effect.activity "cover_designer" "cover_designed" sid,
        Effect.enqueue QUEUE_ORCHESTRATOR
          { story_id := sid, action := ACTION_COVER_READY,
            payload := {}, source := "cover_designer",
            target := "orchestrator" } ]

/-- Global state of one pipeline run: the Document Store contents, the
orchestrator's in-memory join map, and the messages in flight on the named
queues. -/
structure SysState where
  store : Store
  pend : PendingMap
  msgs : List (String × AgentMessage)

/-- External nondeterminism resolved at each step: the generation service
response, the fresh uuid fallback, the SVG extraction, and the random genre
configuration choices of the prompt generator. -/
structure Oracle where
  gen : String → String
  extractSvg : String → String
  fresh : String
  genreName : String
  genreDesc : String
  theme : String
  twc : Nat

/-- Interpret an ordered effect list: `save` is a read-modify-write of the
Document Store under the saved story's id, `enqueue` appends an in-flight
message, logs and activity records change nothing. -/
def applyEffects (store : Store) :
    List Effect → Store × List (String × AgentMessage)
  | [] => (store, [])
  | Effect.save st :: rest =>
    applyEffects (fun s => if s = st.story_id then some st else store s) rest
  | Effect.enqueue q m :: rest =>
    let r := applyEffects store rest
    (r.1, (q, m) :: r.2)
  | _ :: rest => applyEffects store rest

/-- Route a popped message to the agent listening on its queue
(each agent's `__init__` binds it to one queue constant). -/
def dispatch (cfg : Config) (o : Oracle) (store : Store) (pend : PendingMap)
    (q : String) (m : AgentMessage) : PendingMap × List Effect :=
  if q = QUEUE_ORCHESTRATOR then orchestratorHandle cfg o.gen o.fresh store pend m
  else if q = QUEUE_PROMPT_GENERATOR then
    (pend, promptGenHandle cfg o.gen o.genreName o.genreDesc o.theme o.twc m)
  else if q = QUEUE_WRITER then (pend, writerHandle o.gen store m)
  else if q = QUEUE_REVIEWER then (pend, reviewerHandle o.gen store m)
  else if q = QUEUE_EDITOR then (pend, editorHandle o.gen store m)
  else if q = QUEUE_COVER_DESIGNER then
    (pend, coverHandle o.gen o.extractSvg store m)
  else (pend, [])

/-- Successor state after one agent pops and handles one in-flight message,
`rest` being the other in-flight messages. -/
def stepState (cfg : Config) (o : Oracle) (store : Store) (pend : PendingMap)
    (q : String) (m : AgentMessage)
    (rest : List (String × AgentMessage)) : SysState :=
  let d := dispatch cfg o store pend q m
  let a := applyEffects store d.2
  { store := a.1, pend := d.1, msgs := rest ++ a.2 }

/-- One asynchronous step of the pipeline: some in-flight message is popped
from its queue and handled by the agent bound to that queue, under some
resolution of the external nondeterminism. -/
def Step (cfg : Config) (s s2 : SysState) : Prop :=
  ∃ (o : Oracle) (pre post : List (String × AgentMessage))
    (q : String) (m : AgentMessage),
    s.msgs = pre ++ (q, m) :: post ∧
    s2 = stepState cfg o s.store s.pend q m (pre ++ post)

/-- Initial states of a run: empty Document Store, empty join map, and only
externally injected `start_new_story` triggers on the orchestrator queue. -/
def Init (s : SysState) : Prop :=
  (∀ sid, s.store sid = none) ∧
  (∀ p ∈ s.msgs, p.1 = QUEUE_ORCHESTRATOR ∧ p.2.action = ACTION_START_NEW_STORY)

/-- Reachability of the pipeline transition system. -/
def Reachable (cfg : Config) (s0 s : SysState) : Prop :=
  Relation.ReflTransGen (Step cfg) s0 s

/-- Per-story part of the inductive invariant: the revision count respects
the cap and the cap is the process-wide configured one. -/
def StoryOK (cfg : Config) (st : Story) : Prop :=
  st.revision_count ≤ st.max_revisions ∧ st.max_revisions = cfg.max_revisions

/-- Per-message part of the inductive invariant: any in-flight revise message
carries a round number strictly below the configured cap. -/
def MsgOK (cfg : Config) (m : AgentMessage) : Prop :=
  m.action = ACTION_REVISE →
    ∃ r, m.payload.round_number = some r ∧ r < cfg.max_revisions

/-- Inductive invariant of the pipeline. -/
def Inv (cfg : Config) (s : SysState) : Prop :=
  (∀ sid st, s.store sid = some st → StoryOK cfg st) ∧
  (∀ p ∈ s.msgs, MsgOK cfg p.2)

/-- Discipline every emitted effect obeys: saved stories satisfy `StoryOK`,
enqueued messages satisfy `MsgOK`. -/
def EffOK (cfg : Config) : Effect → Prop
  | Effect.save st => StoryOK cfg st
  | Effect.enqueue _ m => MsgOK cfg m
  | _ => True

/-- Every message enqueued by the evaluation step is either the cover-design
hand-off or the revise request to the writer. -/
lemma evaluateAndDecide_enqueue_action (gen : String → String) (story : Story)
    (ra ea : Bool) (rf ef : String) (rn : Nat) (q : String) (m : AgentMessage)
    (h : Effect.enqueue q m ∈ evaluateAndDecide gen story ra ea rf ef rn) :
    (m.action = ACTION_DESIGN_COVER ∧ q = QUEUE_COVER_DESIGNER) ∨
    (m.action = ACTION_REVISE ∧ q = QUEUE_WRITER ∧
      m.payload.round_number = some rn ∧ (ra && ea) = false ∧
      rn < story.max_revisions) := by
  unfold evaluateAndDecide sendForCoverDesign at h
  split at h
  · simp at h
    exact Or.inl ⟨by simp [h.2], h.1⟩
  · split at h
    · simp at h
      exact Or.inl ⟨by simp [h.2], h.1⟩
    · rename_i hb hle
      simp at h
      refine Or.inr ⟨by simp [h.2], h.1, by simp [h.2], ?_, by omega⟩
      exact Bool.eq_false_iff.mpr hb

/-- C1: `_evaluate_and_decide` approves (persisting status APPROVED and
handing off to the cover designer, with no revise message) exactly when both
flags are set or the round number has reached the story's revision cap;
in every other case it persists status REVISION_NEEDED and enqueues a revise
message for the writer. -/
theorem c1_evaluate_and_decide_policy (gen : String → String) (story : Story)
    (ra ea : Bool) (rf ef : String) (rn : Nat) :
    ((ra && ea) = true ∨ story.max_revisions ≤ rn →
      Effect.save { story with status := StoryStatus.APPROVED } ∈
        evaluateAndDecide gen story ra ea rf ef rn ∧
      Effect.enqueue QUEUE_COVER_DESIGNER
          { story_id := story.story_id, action := ACTION_DESIGN_COVER,
            payload := {}, source := "orchestrator", target := "cover_designer" } ∈
        evaluateAndDecide gen story ra ea rf ef rn ∧
      ∀ q m, Effect.enqueue q m ∈ evaluateAndDecide gen story ra ea rf ef rn →
        m.action ≠ ACTION_REVISE) ∧
    ((ra && ea) = false → rn < story.max_revisions →
      Effect.save { story with status := StoryStatus.REVISION_NEEDED } ∈
        evaluateAndDecide gen story ra ea rf ef rn ∧
      ∃ summary, Effect.enqueue QUEUE_WRITER
          { story_id := story.story_id, action := ACTION_REVISE,
            payload := { round_number := some rn,
                         feedback_summary := some summary },
            source := "orchestrator", target := "writer" } ∈
        evaluateAndDecide gen story ra ea rf ef rn) := by
  constructor
  · intro h
    have hmem : Effect.save { story with status := StoryStatus.APPROVED } ∈
        evaluateAndDecide gen story ra ea rf ef rn ∧
        Effect.enqueue QUEUE_COVER_DESIGNER
          { story_id := story.story_id, action := ACTION_DESIGN_COVER,
            payload := {}, source := "orchestrator", target := "cover_designer" } ∈
        evaluateAndDecide gen story ra ea rf ef rn := by
      rcases h with h | h
      · simp [evaluateAndDecide, sendForCoverDesign, h]
      · by_cases hb : (ra && ea) = true
        · simp [evaluateAndDecide, sendForCoverDesign, hb]
        · simp [evaluateAndDecide, sendForCoverDesign, hb, h]
    refine ⟨hmem.1, hmem.2, ?_⟩
    intro q m hq hact
    rcases evaluateAndDecide_enqueue_action gen story ra ea rf ef rn q m hq with
      ⟨ha, _⟩ | ⟨_, _, _, hff, hlt⟩
    · rw [hact] at ha
      exact absurd ha (by decide)
    · rcases h with h | h
      · rw [h] at hff
        exact absurd hff (by decide)
      · omega
  · intro h1 h2
    have h3 : ¬ story.max_revisions ≤ rn := by omega
    refine ⟨by simp [evaluateAndDecide, h1, h3], ?_⟩
    refine ⟨gen ("Reviewer feedback:\n" ++ rf ++ "\n\n" ++
      "Editor feedback:\n" ++ ef ++ "\n\n" ++
      "Reviewer approved: " ++ pyBool ra ++ "\n" ++
      "Editor approved: " ++ pyBool ea ++ "\n\n" ++
      "Summarize the top priority fixes for the writer. Be concise."), ?_⟩
    simp [evaluateAndDecide, h1, h3]

/-- Generation oracle for concrete runs: always answers "summary". -/
def gen1 : String → String := fun _ => "summary"

/-- Concrete story with the model defaults (`revision_count` 0,
`max_revisions` 3). -/
def story1 : Story := { story_id := "s1" }

/-- Witness for C1 at the two spec scenarios: both approved on round 1, and
forced acceptance with both flags false on round 3 of 3. -/
theorem c1_evaluate_and_decide_policy_witness :
    (Effect.save { story1 with status := StoryStatus.APPROVED } ∈
      evaluateAndDecide gen1 story1 true true "" "" 1) ∧
    (Effect.save { story1 with status := StoryStatus.APPROVED } ∈
      evaluateAndDecide gen1 story1 false false "" "" 3) :=
  ⟨((c1_evaluate_and_decide_policy gen1 story1 true true "" "" 1).1
      (Or.inl rfl)).1,
   ((c1_evaluate_and_decide_policy gen1 story1 false false "" "" 3).1
      (Or.inr (by decide))).1⟩

/-- Counterexample for C2: at the spec scenario (reviewer approved, editor
not, round 1 of 3) the emitted revise message carries `round_number = 1`,
the evaluated round itself, not 2. -/
theorem c2_cex_emitted_round_is_current :
    evaluateAndDecide gen1 story1 true false "" "" 1 =
      [ Effect.activity "orchestrator" "revision_needed" "s1",
        Effect.save { story1 with status := StoryStatus.REVISION_NEEDED },
        Effect.enqueue QUEUE_WRITER
          { story_id := "s1", action := ACTION_REVISE,
            payload := { round_number := some 1,
                         feedback_summary := some "summary" },
            source := "orchestrator", target := "writer" } ] := by
  decide

/-- C2 (amended): on a REVISE decision for `round_number` the revise message
carries `round_number` itself; the next review round is started by the
`revision_ready` handler at the payload's round plus one, so the round after
a REVISE decision on round `rn` is `rn + 1`. -/
theorem c2_revise_and_next_round (gen : String → String) (story : Story)
    (ra ea : Bool) (rf ef : String) (rn : Nat)
    (h1 : (ra && ea) = false) (h2 : rn < story.max_revisions) :
    (∃ summary, evaluateAndDecide gen story ra ea rf ef rn =
      [ Effect.activity "orchestrator" "revision_needed" story.story_id,
        Effect.save { story with status := StoryStatus.REVISION_NEEDED },
        Effect.enqueue QUEUE_WRITER
          { story_id := story.story_id, action := ACTION_REVISE,
            payload := { round_number := some rn,
                         feedback_summary := some summary },
            source := "orchestrator", target := "writer" } ]) ∧
    (∀ (cfg : Config) (store : Store) (pend : PendingMap)
        (msg : AgentMessage) (story2 : Story),
        get_story store msg.story_id = some story2 →
        msg.payload.round_number = some rn →
        Effect.enqueue QUEUE_REVIEWER
          { story_id := msg.story_id, action := ACTION_REVIEW,
            payload := { round_number := some (rn + 1) },
            source := "orchestrator", target := "reviewer" } ∈
          (handleRevisionReady cfg store pend msg).2) := by
  have h3 : ¬ story.max_revisions ≤ rn := by omega
  constructor
  · refine ⟨gen ("Reviewer feedback:\n" ++ rf ++ "\n\n" ++
      "Editor feedback:\n" ++ ef ++ "\n\n" ++
      "Reviewer approved: " ++ pyBool ra ++ "\n" ++
      "Editor approved: " ++ pyBool ea ++ "\n\n" ++
      "Summarize the top priority fixes for the writer. Be concise."), ?_⟩
    simp [evaluateAndDecide, h1, h3]
  · intro cfg store pend msg story2 hs hr
    by_cases hm : cfg.reviewMode = "parallel" <;>
      simp [handleRevisionReady, hs, hr, sendForReview, hm]

/-- Witness for C2 at the spec's revision-loop scenario (round 1 of 3). -/
theorem c2_revise_and_next_round_witness :
    (∃ summary, evaluateAndDecide gen1 story1 true false "" "" 1 =
      [ Effect.activity "orchestrator" "revision_needed" "s1",
        Effect.save { story1 with status := StoryStatus.REVISION_NEEDED },
        Effect.enqueue QUEUE_WRITER
          { story_id := "s1", action := ACTION_REVISE,
            payload := { round_number := some 1,
                         feedback_summary := some summary },
            source := "orchestrator", target := "writer" } ]) ∧
    (∀ (cfg : Config) (store : Store) (pend : PendingMap)
        (msg : AgentMessage) (story2 : Story),
        get_story store msg.story_id = some story2 →
        msg.payload.round_number = some 1 →
        Effect.enqueue QUEUE_REVIEWER
          { story_id := msg.story_id, action := ACTION_REVIEW,
            payload := { round_number := some 2 },
            source := "orchestrator", target := "reviewer" } ∈
          (handleRevisionReady cfg store pend msg).2) :=
  c2_revise_and_next_round gen1 story1 true false "" "" 1 rfl (by decide)

/-- C4: when the story exists, `draft_ready` persists status IN_REVIEW and
starts a review round (the reviewer is messaged in either review mode)
numbered `revision_count + 1`, and `revision_ready` does the same with the
round numbered one more than the message payload's round number. -/
theorem c4_round_numbering (cfg : Config) (store : Store) (pend : PendingMap)
    (dmsg rmsg : AgentMessage) (story story2 : Story) (k : Nat)
    (h1 : get_story store dmsg.story_id = some story)
    (h2 : get_story store rmsg.story_id = some story2)
    (h3 : rmsg.payload.round_number = some k) :
    (Effect.save { story with status := StoryStatus.IN_REVIEW } ∈
        (handleDraftReady cfg store pend dmsg).2 ∧
      Effect.enqueue QUEUE_REVIEWER
        { story_id := dmsg.story_id, action := ACTION_REVIEW,
          payload := { round_number := some (story.revision_count + 1) },
          source := "orchestrator", target := "reviewer" } ∈
        (handleDraftReady cfg store pend dmsg).2) ∧
    (Effect.save { story2 with status := StoryStatus.IN_REVIEW } ∈
        (handleRevisionReady cfg store pend rmsg).2 ∧
      Effect.enqueue QUEUE_REVIEWER
        { story_id := rmsg.story_id, action := ACTION_REVIEW,
          payload := { round_number := some (k + 1) },
          source := "orchestrator", target := "reviewer" } ∈
        (handleRevisionReady cfg store pend rmsg).2) := by
  by_cases hm : cfg.reviewMode = "parallel" <;>
    simp [handleDraftReady, handleRevisionReady, h1, h2, h3,
      sendForReview, hm]

/-- Empty join map. -/
def pend0 : PendingMap := fun _ => none

/-- Concrete story with two completed revisions for witnesses. -/
def storyW : Story := { story_id := "s1", revision_count := 2 }

/-- Store holding `storyW` under every id. -/
def storeW : Store := fun _ => some storyW

/-- Concrete `draft_ready` message. -/
def dmsgW : AgentMessage := { story_id := "s1", action := ACTION_DRAFT_READY }

/-- Concrete `revision_ready` message carrying round 1. -/
def rmsgW : AgentMessage :=
  { story_id := "s1", action := ACTION_REVISION_READY,
    payload := { round_number := some 1 } }

/-- Witness for C4: a stored story with `revision_count` 2 yields review
round 3 from `draft_ready`, and a `revision_ready` carrying round 1 yields
review round 2. -/
theorem c4_round_numbering_witness :
    (Effect.save { storyW with status := StoryStatus.IN_REVIEW } ∈
        (handleDraftReady {} storeW pend0 dmsgW).2 ∧
      Effect.enqueue QUEUE_REVIEWER
        { story_id := dmsgW.story_id, action := ACTION_REVIEW,
          payload := { round_number := some (storyW.revision_count + 1) },
          source := "orchestrator", target := "reviewer" } ∈
        (handleDraftReady {} storeW pend0 dmsgW).2) ∧
    (Effect.save { storyW with status := StoryStatus.IN_REVIEW } ∈
        (handleRevisionReady {} storeW pend0 rmsgW).2 ∧
      Effect.enqueue QUEUE_REVIEWER
        { story_id := rmsgW.story_id, action := ACTION_REVIEW,
          payload := { round_number := some (1 + 1) },
          source := "orchestrator", target := "reviewer" } ∈
        (handleRevisionReady {} storeW pend0 rmsgW).2) :=
  c4_round_numbering {} storeW pend0 dmsgW rmsgW storyW storyW 1 rfl rfl rfl

/-- Every message enqueued by the sequential-mode `edit_complete` handler
comes from the evaluation step, hence is a cover hand-off or a revise
request. -/
lemma handleEditComplete_seq_enqueue_action (cfg : Config)
    (gen : String → String) (store : Store) (pend : PendingMap)
    (msg m2 : AgentMessage) (q : String)
    (hnp : ¬ cfg.reviewMode = "parallel")
    (hin : Effect.enqueue q m2 ∈ (handleEditComplete cfg gen store pend msg).2) :
    m2.action = ACTION_DESIGN_COVER ∨ m2.action = ACTION_REVISE := by
  unfold handleEditComplete at hin
  rw [if_neg hnp] at hin
  split at hin
  · simp at hin
  · rcases evaluateAndDecide_enqueue_action _ _ _ _ _ _ _ _ _
      (by simpa using hin) with ⟨h, _⟩ | ⟨h, _⟩
    · exact Or.inl h
    · exact Or.inr h

/-- C5: with the sequential review mode configured, the orchestrator never
enqueues an `edit` message except while handling a `review_complete` message,
and the edit round it then enqueues to the editor queue is the round carried
by that `review_complete` message. -/
theorem c5_sequential_editor_after_reviewer (cfg : Config)
    (gen : String → String) (fresh : String) (store : Store)
    (pend : PendingMap) (msg m2 : AgentMessage) (q : String)
    (hmode : cfg.reviewMode = "sequential")
    (hin : Effect.enqueue q m2 ∈ (orchestratorHandle cfg gen fresh store pend msg).2)
    (hact : m2.action = ACTION_EDIT) :
    msg.action = ACTION_REVIEW_COMPLETE ∧ q = QUEUE_EDITOR ∧
    m2.payload.round_number = some (msg.payload.round_number.getD 1) := by
  have hnp : ¬ cfg.reviewMode = "parallel" := by
    rw [hmode]; decide
  unfold orchestratorHandle at hin
  split at hin
  · simp [handleStartNewStory] at hin
    rw [hin.2] at hact
    simp [ACTION_GENERATE_PROMPT, ACTION_EDIT] at hact
  · split at hin
    · simp [handlePromptReady] at hin
      rw [hin.2] at hact
      simp [ACTION_WRITE_DRAFT, ACTION_EDIT] at hact
    · split at hin
      · unfold handleDraftReady at hin
        split at hin
        · simp at hin
        · simp [sendForReview, hnp] at hin
          rw [hin.2] at hact
          simp [ACTION_REVIEW, ACTION_EDIT] at hact
      · split at hin
        · rename_i hrc
          unfold handleReviewComplete at hin
          rw [if_neg hnp] at hin
          simp at hin
          refine ⟨hrc, ?_, ?_⟩
          · rw [hin.1]
          · rw [hin.2]
        · split at hin
          · rcases handleEditComplete_seq_enqueue_action cfg gen store pend
              msg m2 q hnp hin with h | h <;>
              · rw [hact] at h
                exact absurd h (by decide)
          · split at hin
            · unfold handleRevisionReady at hin
              split at hin
              · simp at hin
              · simp [sendForReview, hnp] at hin
                rw [hin.2] at hact
                simp [ACTION_REVIEW, ACTION_EDIT] at hact
            · split at hin
              · unfold handleCoverReady at hin
                split at hin
                · simp at hin
                · simp [publishStory] at hin
              · simp at hin

/-- Concrete sequential-mode `review_complete` message for round 2. -/
def rcMsgW : AgentMessage :=
  { story_id := "s1", action := ACTION_REVIEW_COMPLETE,
    payload := { round_number := some 2 } }

/-- The edit message the orchestrator forwards for `rcMsgW`. -/
def editMsgW : AgentMessage :=
  { story_id := "s1", action := ACTION_EDIT,
    payload := { round_number := some 2 },
    source := "orchestrator", target := "editor" }

/-- Witness for C5 at a concrete sequential-mode `review_complete`. -/
theorem c5_sequential_editor_after_reviewer_witness :
    rcMsgW.action = ACTION_REVIEW_COMPLETE ∧ QUEUE_EDITOR = QUEUE_EDITOR ∧
    editMsgW.payload.round_number = some (rcMsgW.payload.round_number.getD 1) :=
  c5_sequential_editor_after_reviewer {} gen1 "f" (fun _ => none) pend0
    rcMsgW editMsgW QUEUE_EDITOR rfl (by decide) rfl

/-- Join map holding a reviewer-only entry for story "s1". -/
def pendC : PendingMap :=
  fun s => if s = "s1" then some { reviewer := some {} } else none

/-- Concrete `edit_complete` fan-in message for story "s1". -/
def ecMsgW : AgentMessage :=
  { story_id := "s1", action := ACTION_EDIT_COMPLETE,
    payload := { round_number := some 1 } }

/-- Counterexample for C6: the editor completion is the second of the two
role completions (the reviewer entry is already present), yet because the
story is missing from the Document Store the handler returns before the
deletion and the join map still contains the story id. -/
theorem c6_cex_entry_remains_on_missing_story :
    (handleParallelFeedback gen1 (fun _ => none) pendC ecMsgW Role.editor).1
        "s1" =
      some { reviewer := some {}, editor := some ecMsgW.payload } := by
  decide

/-- C6 (amended): when the story loads from the Document Store, processing
the role completion that makes both entries present deletes the join entry
for that story id; when the lookup fails the entry remains. -/
theorem c6_join_entry_deleted_after_both (gen : String → String)
    (store : Store) (pend : PendingMap) (msg : AgentMessage) (role : Role)
    (story : Story)
    (hstory : get_story store msg.story_id = some story)
    (hrev : (((pend msg.story_id).getD {}).set role msg.payload).reviewer.isSome)
    (hed : (((pend msg.story_id).getD {}).set role msg.payload).editor.isSome) :
    (handleParallelFeedback gen store pend msg role).1 msg.story_id = none := by
  obtain ⟨rp, hrp⟩ := Option.isSome_iff_exists.mp hrev
  obtain ⟨ep, hep⟩ := Option.isSome_iff_exists.mp hed
  unfold handleParallelFeedback
  simp only [hrp, hep, hstory]
  simp [updateMap]

/-- Witness for C6: with the reviewer entry waiting and the story present,
the editor completion deletes the join entry. -/
theorem c6_join_entry_deleted_after_both_witness :
    (handleParallelFeedback gen1 storeW pendC ecMsgW Role.editor).1
      ecMsgW.story_id = none :=
  c6_join_entry_deleted_after_both gen1 storeW pendC ecMsgW Role.editor
    storyW rfl (by decide) (by decide)

/-- C3: in parallel mode, starting from a fresh join entry, the first role
completion only records its payload and waits (no evaluation, no effects
beyond the waiting log), the second triggers exactly one evaluation with
both recorded payloads, and the reviewer-first and editor-first orders
produce identical evaluation effects (hence identical decisions and
persisted statuses) and identical final join maps. -/
theorem c3_parallel_fanin_order_irrelevant (gen : String → String)
    (store : Store) (pend : PendingMap) (sid : String)
    (rm em : AgentMessage)
    (hpend : pend sid = some {})
    (hr : rm.story_id = sid) (he : em.story_id = sid)
    (hround : rm.payload.round_number = em.payload.round_number) :
    (handleParallelFeedback gen store pend rm Role.reviewer).2 =
      [Effect.activity "orchestrator" "waiting_for_feedback" sid] ∧
    (handleParallelFeedback gen store pend em Role.editor).2 =
      [Effect.activity "orchestrator" "waiting_for_feedback" sid] ∧
    (∀ story, get_story store sid = some story →
      (handleParallelFeedback gen store
          (handleParallelFeedback gen store pend rm Role.reviewer).1
          em Role.editor).2 =
        evaluateAndDecide gen story (rm.payload.approved.getD false)
          (em.payload.approved.getD false) (rm.payload.feedback.getD "")
          (em.payload.feedback.getD "") (em.payload.round_number.getD 1)) ∧
    (handleParallelFeedback gen store
        (handleParallelFeedback gen store pend rm Role.reviewer).1
        em Role.editor).2 =
      (handleParallelFeedback gen store
        (handleParallelFeedback gen store pend em Role.editor).1
        rm Role.reviewer).2 ∧
    (handleParallelFeedback gen store
        (handleParallelFeedback gen store pend rm Role.reviewer).1
        em Role.editor).1 =
      (handleParallelFeedback gen store
        (handleParallelFeedback gen store pend em Role.editor).1
        rm Role.reviewer).1 := by
  have e1 : handleParallelFeedback gen store pend rm Role.reviewer =
      (updateMap pend sid (some { reviewer := some rm.payload }),
       [Effect.activity "orchestrator" "waiting_for_feedback" sid]) := by
    unfold handleParallelFeedback
    simp only [hr, hpend]
    rfl
  have e2 : handleParallelFeedback gen store pend em Role.editor =
      (updateMap pend sid (some { editor := some em.payload }),
       [Effect.activity "orchestrator" "waiting_for_feedback" sid]) := by
    unfold handleParallelFeedback
    simp only [he, hpend]
    rfl
  refine ⟨by rw [e1], by rw [e2], ?_, ?_, ?_⟩
  · intro story hstory
    unfold get_story at hstory
    rw [e1]
    unfold handleParallelFeedback
    simp [he, updateMap, Pending.set, get_story, hstory]
  · rw [e1, e2]
    unfold handleParallelFeedback
    cases hs : store sid with
    | none => simp [he, hr, updateMap, Pending.set, get_story, hs]
    | some story => simp [he, hr, updateMap, Pending.set, get_story, hs, hround]
  · rw [e1, e2]
    unfold handleParallelFeedback
    cases hs : store sid with
    | none =>
      simp only [he, hr, updateMap, Pending.set, get_story, hs]
      funext s
      by_cases hcase : s = sid <;> simp [hcase, updateMap]
    | some story =>
      simp only [he, hr, updateMap, Pending.set, get_story, hs]
      funext s
      by_cases hcase : s = sid <;> simp [hcase, updateMap]

/-- Join map with a fresh (empty) entry for story "s1", as created by a
parallel-mode review-round start. -/
def pendJ : PendingMap := fun s => if s = "s1" then some {} else none

/-- Concrete reviewer fan-in message (approving) for round 1. -/
def rvMsgW : AgentMessage :=
  { story_id := "s1", action := ACTION_REVIEW_COMPLETE,
    payload := { round_number := some 1, approved := some true,
                 feedback := some "good" } }

/-- Concrete editor fan-in message (not approving) for round 1. -/
def edMsgW : AgentMessage :=
  { story_id := "s1", action := ACTION_EDIT_COMPLETE,
    payload := { round_number := some 1, approved := some false,
                 feedback := some "fix" } }

/-- Witness for C3 at a concrete round-1 fan-in. -/
theorem c3_parallel_fanin_order_irrelevant_witness :
    (handleParallelFeedback gen1 storeW pendJ rvMsgW Role.reviewer).2 =
      [Effect.activity "orchestrator" "waiting_for_feedback" "s1"] ∧
    (handleParallelFeedback gen1 storeW pendJ edMsgW Role.editor).2 =
      [Effect.activity "orchestrator" "waiting_for_feedback" "s1"] ∧
    (∀ story, get_story storeW "s1" = some story →
      (handleParallelFeedback gen1 storeW
          (handleParallelFeedback gen1 storeW pendJ rvMsgW Role.reviewer).1
          edMsgW Role.editor).2 =
        evaluateAndDecide gen1 story (rvMsgW.payload.approved.getD false)
          (edMsgW.payload.approved.getD false) (rvMsgW.payload.feedback.getD "")
          (edMsgW.payload.feedback.getD "") (edMsgW.payload.round_number.getD 1)) ∧
    (handleParallelFeedback gen1 storeW
        (handleParallelFeedback gen1 storeW pendJ rvMsgW Role.reviewer).1
        edMsgW Role.editor).2 =
      (handleParallelFeedback gen1 storeW
        (handleParallelFeedback gen1 storeW pendJ edMsgW Role.editor).1
        rvMsgW Role.reviewer).2 ∧
    (handleParallelFeedback gen1 storeW
        (handleParallelFeedback gen1 storeW pendJ rvMsgW Role.reviewer).1
        edMsgW Role.editor).1 =
      (handleParallelFeedback gen1 storeW
        (handleParallelFeedback gen1 storeW pendJ edMsgW Role.editor).1
        rvMsgW Role.reviewer).1 :=
  c3_parallel_fanin_order_irrelevant gen1 storeW pendJ "s1" rvMsgW edMsgW
    rfl rfl rfl rfl

/-- Counterexample for C8: a sequential-mode `edit_complete` whose story is
missing from the Document Store is dropped with NO log effect at all — the
handler returns silently, contradicting "the handler logs the failure". -/
theorem c8_cex_edit_complete_drops_silently :
    (handleEditComplete {} gen1 (fun _ => none) pend0
      { story_id := "s1", action := ACTION_EDIT_COMPLETE }).2 =
      ([] : List Effect) := by
  rfl

/-- C8 (amended): whenever the referenced story cannot be loaded, every
handler drops the message with no enqueue and no save; the draft/revision/
cover-ready, write/revise, review, edit and design-cover handlers log the
failure, while the sequential `edit_complete` path and the parallel fan-in
completion path (both join entries present) return silently with no effect
at all. -/
theorem c8_missing_story_drops (cfg : Config) (gen : String → String)
    (extractSvg : String → String) (store : Store) (pend : PendingMap)
    (msg : AgentMessage)
    (hmiss : get_story store msg.story_id = none) :
    handleDraftReady cfg store pend msg =
      (pend, [Effect.logError "story_not_found" msg.story_id]) ∧
    handleRevisionReady cfg store pend msg =
      (pend, [Effect.logError "story_not_found" msg.story_id]) ∧
    handleCoverReady store msg =
      [Effect.logError "story_not_found" msg.story_id] ∧
    (¬ cfg.reviewMode = "parallel" →
      handleEditComplete cfg gen store pend msg = (pend, [])) ∧
    (∀ role,
      (((pend msg.story_id).getD {}).set role msg.payload).reviewer.isSome →
      (((pend msg.story_id).getD {}).set role msg.payload).editor.isSome →
      (handleParallelFeedback gen store pend msg role).2 =
        ([] : List Effect)) ∧
    (msg.action = ACTION_WRITE_DRAFT →
      writerHandle gen store msg =
        [Effect.activity "writer" "writing_draft" msg.story_id,
         Effect.logError "story_not_found" msg.story_id]) ∧
    (msg.action = ACTION_REVISE →
      writerHandle gen store msg =
        [Effect.activity "writer" "revising" msg.story_id,
         Effect.logError "story_not_found" msg.story_id]) ∧
    (msg.action = ACTION_REVIEW →
      reviewerHandle gen store msg =
        [Effect.activity "reviewer" "reviewing" msg.story_id,
         Effect.logError "story_not_found" msg.story_id]) ∧
    (msg.action = ACTION_EDIT →
      editorHandle gen store msg =
        [Effect.activity "editor" "editing" msg.story_id,
         Effect.logError "story_not_found" msg.story_id]) ∧
    (msg.action = ACTION_DESIGN_COVER →
      coverHandle gen extractSvg store msg =
        [Effect.activity "cover_designer" "designing_cover" msg.story_id,
         Effect.logError "story_not_found" msg.story_id]) := by
  refine ⟨?_, ?_, ?_, ?_, ?_, ?_, ?_, ?_, ?_, ?_⟩
  · simp [handleDraftReady, hmiss]
  · simp [handleRevisionReady, hmiss]
  · simp [handleCoverReady, hmiss]
  · intro hnp
    simp [handleEditComplete, hnp, hmiss]
  · intro role hrev hed
    obtain ⟨rp, hrp⟩ := Option.isSome_iff_exists.mp hrev
    obtain ⟨ep, hep⟩ := Option.isSome_iff_exists.mp hed
    unfold handleParallelFeedback
    simp [hrp, hep, hmiss]
  · intro h
    simp [writerHandle, h, writeDraft, hmiss]
  · intro h
    simp [writerHandle, h, writerRevise, hmiss, ACTION_WRITE_DRAFT,
      ACTION_REVISE]
  · intro h
    simp [reviewerHandle, h, hmiss]
  · intro h
    simp [editorHandle, h, hmiss]
  · intro h
    simp [coverHandle, h, hmiss]

/-- Witness for C8: a story missing from an empty store, with a
reviewer join entry already waiting so the parallel fan-in conjunct is
exercised non-vacuously. -/
theorem c8_missing_story_drops_witness :
    handleDraftReady {} (fun _ => none) pendC
        { story_id := "s1", action := ACTION_REVIEW } =
      (pendC, [Effect.logError "story_not_found" "s1"]) ∧
    handleRevisionReady {} (fun _ => none) pendC
        { story_id := "s1", action := ACTION_REVIEW } =
      (pendC, [Effect.logError "story_not_found" "s1"]) ∧
    handleCoverReady (fun _ => none)
        { story_id := "s1", action := ACTION_REVIEW } =
      [Effect.logError "story_not_found" "s1"] ∧
    (¬ Config.reviewMode {} = "parallel" →
      handleEditComplete {} gen1 (fun _ => none) pendC
        { story_id := "s1", action := ACTION_REVIEW } = (pendC, [])) ∧
    (∀ role,
      (((pendC "s1").getD {}).set role
        ({ story_id := "s1", action := ACTION_REVIEW } : AgentMessage).payload).reviewer.isSome →
      (((pendC "s1").getD {}).set role
        ({ story_id := "s1", action := ACTION_REVIEW } : AgentMessage).payload).editor.isSome →
      (handleParallelFeedback gen1 (fun _ => none) pendC
        { story_id := "s1", action := ACTION_REVIEW } role).2 =
        ([] : List Effect)) ∧
    (({ story_id := "s1", action := ACTION_REVIEW } : AgentMessage).action =
        ACTION_WRITE_DRAFT →
      writerHandle gen1 (fun _ => none)
          { story_id := "s1", action := ACTION_REVIEW } =
        [Effect.activity "writer" "writing_draft" "s1",
         Effect.logError "story_not_found" "s1"]) ∧
    (({ story_id := "s1", action := ACTION_REVIEW } : AgentMessage).action =
        ACTION_REVISE →
      writerHandle gen1 (fun _ => none)
          { story_id := "s1", action := ACTION_REVIEW } =
        [Effect.activity "writer" "revising" "s1",
         Effect.logError "story_not_found" "s1"]) ∧
    (({ story_id := "s1", action := ACTION_REVIEW } : AgentMessage).action =
        ACTION_REVIEW →
      reviewerHandle gen1 (fun _ => none)
          { story_id := "s1", action := ACTION_REVIEW } =
        [Effect.activity "reviewer" "reviewing" "s1",
         Effect.logError "story_not_found" "s1"]) ∧
    (({ story_id := "s1", action := ACTION_REVIEW } : AgentMessage).action =
        ACTION_EDIT →
      editorHandle gen1 (fun _ => none)
          { story_id := "s1", action := ACTION_REVIEW } =
        [Effect.activity "editor" "editing" "s1",
         Effect.logError "story_not_found" "s1"]) ∧
    (({ story_id := "s1", action := ACTION_REVIEW } : AgentMessage).action =
        ACTION_DESIGN_COVER →
      coverHandle gen1 (fun s => s) (fun _ => none)
          { story_id := "s1", action := ACTION_REVIEW } =
        [Effect.activity "cover_designer" "designing_cover" "s1",
         Effect.logError "story_not_found" "s1"]) :=
  c8_missing_story_drops {} gen1 (fun s => s) (fun _ => none) pendC
    { story_id := "s1", action := ACTION_REVIEW } rfl

/-- C9: a message whose action is not in the receiving component's dispatch
table yields exactly one warning-log effect — nothing is enqueued, saved or
looked up. -/
theorem c9_unknown_action_dropped (cfg : Config) (gen : String → String)
    (extractSvg : String → String) (fresh : String) (store : Store)
    (pend : PendingMap) (genreName genreDesc theme : String) (twc : Nat)
    (msg : AgentMessage) :
    (msg.action ∉ ([ACTION_START_NEW_STORY, ACTION_PROMPT_READY,
        ACTION_DRAFT_READY, ACTION_REVIEW_COMPLETE, ACTION_EDIT_COMPLETE,
        ACTION_REVISION_READY, ACTION_COVER_READY] : List String) →
      orchestratorHandle cfg gen fresh store pend msg =
        (pend, [Effect.logWarning "unknown_action" msg.action])) ∧
    (msg.action ∉ ([ACTION_WRITE_DRAFT, ACTION_REVISE] : List String) →
      writerHandle gen store msg =
        [Effect.logWarning "unknown_action" msg.action]) ∧
    (msg.action ≠ ACTION_REVIEW →
      reviewerHandle gen store msg =
        [Effect.logWarning "unknown_action" msg.action]) ∧
    (msg.action ≠ ACTION_EDIT →
      editorHandle gen store msg =
        [Effect.logWarning "unknown_action" msg.action]) ∧
    (msg.action ≠ ACTION_GENERATE_PROMPT →
      promptGenHandle cfg gen genreName genreDesc theme twc msg =
        [Effect.logWarning "unknown_action" msg.action]) ∧
    (msg.action ≠ ACTION_DESIGN_COVER →
      coverHandle gen extractSvg store msg =
        [Effect.logWarning "unknown_action" msg.action]) := by
  refine ⟨?_, ?_, ?_, ?_, ?_, ?_⟩
  · intro h
    simp only [List.mem_cons, List.not_mem_nil, or_false, not_or] at h
    obtain ⟨h1, h2, h3, h4, h5, h6, h7⟩ := h
    unfold orchestratorHandle
    rw [if_neg h1, if_neg h2, if_neg h3, if_neg h4, if_neg h5, if_neg h6,
      if_neg h7]
  · intro h
    simp only [List.mem_cons, List.not_mem_nil, or_false, not_or] at h
    unfold writerHandle
    rw [if_neg h.1, if_neg h.2]
  · intro h
    unfold reviewerHandle
    rw [if_pos h]
  · intro h
    unfold editorHandle
    rw [if_pos h]
  · intro h
    unfold promptGenHandle
    rw [if_pos h]
  · intro h
    unfold coverHandle
    rw [if_pos h]

/-- Witness for C9 with the unrecognized action "bogus". -/
theorem c9_unknown_action_dropped_witness :
    (("bogus" : String) ∉ ([ACTION_START_NEW_STORY, ACTION_PROMPT_READY,
        ACTION_DRAFT_READY, ACTION_REVIEW_COMPLETE, ACTION_EDIT_COMPLETE,
        ACTION_REVISION_READY, ACTION_COVER_READY] : List String) →
      orchestratorHandle {} gen1 "f" (fun _ => none) pend0
          { story_id := "s1", action := "bogus" } =
        (pend0, [Effect.logWarning "unknown_action" "bogus"])) ∧
    (("bogus" : String) ∉ ([ACTION_WRITE_DRAFT, ACTION_REVISE] : List String) →
      writerHandle gen1 (fun _ => none)
          { story_id := "s1", action := "bogus" } =
        [Effect.logWarning "unknown_action" "bogus"]) ∧
    (("bogus" : String) ≠ ACTION_REVIEW →
      reviewerHandle gen1 (fun _ => none)
          { story_id := "s1", action := "bogus" } =
        [Effect.logWarning "unknown_action" "bogus"]) ∧
    (("bogus" : String) ≠ ACTION_EDIT →
      editorHandle gen1 (fun _ => none)
          { story_id := "s1", action := "bogus" } =
        [Effect.logWarning "unknown_action" "bogus"]) ∧
    (("bogus" : String) ≠ ACTION_GENERATE_PROMPT →
      promptGenHandle {} gen1 "g" "d" "t" 100
          { story_id := "s1", action := "bogus" } =
        [Effect.logWarning "unknown_action" "bogus"]) ∧
    (("bogus" : String) ≠ ACTION_DESIGN_COVER →
      coverHandle gen1 (fun s => s) (fun _ => none)
          { story_id := "s1", action := "bogus" } =
        [Effect.logWarning "unknown_action" "bogus"]) :=
  c9_unknown_action_dropped {} gen1 (fun s => s) "f" (fun _ => none) pend0
    "g" "d" "t" 100 { story_id := "s1", action := "bogus" }

/-- C10: when the story loads, the reviewer and the editor append a feedback
item whose `approved` flag is exactly the `"APPROVED: YES"` containment
probe on the uppercased generated text; the empty text is not approved. -/
theorem c10_approved_iff_probe (gen : String → String) (store : Store)
    (rmsg emsg : AgentMessage) (storyR storyE : Story)
    (hra : rmsg.action = ACTION_REVIEW)
    (hsr : get_story store rmsg.story_id = some storyR)
    (hea : emsg.action = ACTION_EDIT)
    (hse : get_story store emsg.story_id = some storyE) :
    (∃ t, Effect.save { storyR with feedback := storyR.feedback ++
        [{ agent := "reviewer",
           round_number := rmsg.payload.round_number.getD 1,
           feedback := t, approved := containsApproved t }] } ∈
      reviewerHandle gen store rmsg) ∧
    (∃ t, Effect.save { storyE with feedback := storyE.feedback ++
        [{ agent := "editor",
           round_number := emsg.payload.round_number.getD 1,
           feedback := t, approved := containsApproved t }] } ∈
      editorHandle gen store emsg) ∧
    containsApproved "" = false := by
  refine ⟨⟨gen ("Review this " ++
      (match storyR.prompt with | some p => p.genre | none => "") ++
      " short story:\n\n" ++ storyR.current_draft ++ "\n\n" ++
      "Original prompt:\n" ++
      (match storyR.prompt with | some p => p.setting | none => "N/A") ++
      "\n"), ?_⟩,
    ⟨gen ("Edit this " ++
      (match storyE.prompt with | some p => p.genre | none => "") ++
      " short story for line-level quality:\n\n" ++
      storyE.current_draft ++ "\n"), ?_⟩, rfl⟩
  · simp [reviewerHandle, hra, hsr]
  · simp [editorHandle, hea, hse]

/-- Oracle whose generated feedback contains a lowercase approval marker. -/
def genYes : String → String := fun _ => "approved: yes — well done"

/-- Review and edit messages for the C10 witness. -/
def rvMsg2 : AgentMessage :=
  { story_id := "s1", action := ACTION_REVIEW,
    payload := { round_number := some 1 } }

/-- Edit message for the C10 witness. -/
def edMsg2 : AgentMessage :=
  { story_id := "s1", action := ACTION_EDIT,
    payload := { round_number := some 1 } }

/-- Witness for C10 on a concrete store and oracle. -/
theorem c10_approved_iff_probe_witness :
    (∃ t, Effect.save { storyW with feedback := storyW.feedback ++
        [{ agent := "reviewer",
           round_number := rvMsg2.payload.round_number.getD 1,
           feedback := t, approved := containsApproved t }] } ∈
      reviewerHandle genYes storeW rvMsg2) ∧
    (∃ t, Effect.save { storyW with feedback := storyW.feedback ++
        [{ agent := "editor",
           round_number := edMsg2.payload.round_number.getD 1,
           feedback := t, approved := containsApproved t }] } ∈
      editorHandle genYes storeW edMsg2) ∧
    containsApproved "" = false :=
  c10_approved_iff_probe genYes storeW rvMsg2 edMsg2 storyW storyW
    rfl rfl rfl rfl

/-- Log and activity effects trivially satisfy the effect discipline. -/
lemma effOK_logError (cfg : Config) (a b : String) :
    EffOK cfg (Effect.logError a b) :=
  trivial

/-- Warning logs trivially satisfy the effect discipline. -/
lemma effOK_logWarning (cfg : Config) (a b : String) :
    EffOK cfg (Effect.logWarning a b) :=
  trivial

/-- Activity records trivially satisfy the effect discipline. -/
lemma effOK_activity (cfg : Config) (a b c : String) :
    EffOK cfg (Effect.activity a b c) :=
  trivial

/-- An enqueue of a non-revise message satisfies the effect discipline. -/
lemma effOK_enqueue_of_ne (cfg : Config) (q : String) (m : AgentMessage)
    (h : m.action ≠ ACTION_REVISE) : EffOK cfg (Effect.enqueue q m) :=
  fun hc => absurd hc h

/-- A save of a discipline-respecting story satisfies the effect
discipline. -/
lemma effOK_save (cfg : Config) (st : Story) (h : StoryOK cfg st) :
    EffOK cfg (Effect.save st) :=
  h

/-- Status updates leave the revision bookkeeping untouched. -/
lemma storyOK_set_status (cfg : Config) (story : Story) (st : StoryStatus)
    (h : StoryOK cfg story) : StoryOK cfg { story with status := st } :=
  h

/-- Cover hand-off effects obey the discipline. -/
lemma effok_sendForCoverDesign (cfg : Config) (story : Story)
    (h : StoryOK cfg story) :
    ∀ e ∈ sendForCoverDesign story, EffOK cfg e := by
  intro e he
  simp [sendForCoverDesign] at he
  rcases he with rfl | rfl | rfl
  · exact effOK_activity cfg _ _ _
  · exact effOK_save cfg _ (storyOK_set_status cfg story _ h)
  · exact effOK_enqueue_of_ne cfg _ _ (by simp [ACTION_DESIGN_COVER, ACTION_REVISE])

/-- Evaluation effects obey the discipline: the only saves re-status the
loaded story and the only enqueues are the cover hand-off or a revise with a
round strictly below the cap. -/
lemma effok_evaluateAndDecide (cfg : Config) (gen : String → String)
    (story : Story) (ra ea : Bool) (rf ef : String) (rn : Nat)
    (h : StoryOK cfg story) :
    ∀ e ∈ evaluateAndDecide gen story ra ea rf ef rn, EffOK cfg e := by
  intro e he
  unfold evaluateAndDecide at he
  split at he
  · simp [sendForCoverDesign] at he
    rcases he with rfl | rfl | rfl | rfl | rfl
    · exact effOK_activity cfg _ _ _
    · exact effOK_save cfg _ (storyOK_set_status cfg story _ h)
    · exact effOK_activity cfg _ _ _
    · exact effOK_save cfg _ (storyOK_set_status cfg story _ h)
    · exact effOK_enqueue_of_ne cfg _ _ (by simp [ACTION_DESIGN_COVER, ACTION_REVISE])
  · split at he
    · simp [sendForCoverDesign] at he
      rcases he with rfl | rfl | rfl | rfl | rfl
      · exact effOK_activity cfg _ _ _
      · exact effOK_save cfg _ (storyOK_set_status cfg story _ h)
      · exact effOK_activity cfg _ _ _
      · exact effOK_save cfg _ (storyOK_set_status cfg story _ h)
      · exact effOK_enqueue_of_ne cfg _ _ (by simp [ACTION_DESIGN_COVER, ACTION_REVISE])
    · rename_i hb hle
      simp at he
      rcases he with rfl | rfl | rfl
      · exact effOK_activity cfg _ _ _
      · exact effOK_save cfg _ (storyOK_set_status cfg story _ h)
      · intro _
        obtain ⟨h1, h2⟩ := h
        exact ⟨rn, rfl, by omega⟩

/-- Review-round fan-out effects obey the discipline (review and edit
messages, never a revise). -/
lemma effok_sendForReview (cfg cfg2 : Config) (pend : PendingMap)
    (sid : String) (rn : Nat) :
    ∀ e ∈ (sendForReview cfg2 pend sid rn).2, EffOK cfg e := by
  intro e he
  unfold sendForReview at he
  split at he
  · simp at he
    rcases he with rfl | rfl | rfl
    · exact effOK_activity cfg _ _ _
    · exact effOK_enqueue_of_ne cfg _ _ (by simp [ACTION_REVIEW, ACTION_REVISE])
    · exact effOK_enqueue_of_ne cfg _ _ (by simp [ACTION_EDIT, ACTION_REVISE])
  · simp at he
    rcases he with rfl | rfl
    · exact effOK_activity cfg _ _ _
    · exact effOK_enqueue_of_ne cfg _ _ (by simp [ACTION_REVIEW, ACTION_REVISE])

/-- Parallel fan-in effects obey the discipline. -/
lemma effok_parallelFeedback (cfg : Config) (gen : String → String)
    (store : Store) (pend : PendingMap) (msg : AgentMessage) (role : Role)
    (hstore : ∀ sid st, store sid = some st → StoryOK cfg st) :
    ∀ e ∈ (handleParallelFeedback gen store pend msg role).2, EffOK cfg e := by
  intro e he
  unfold handleParallelFeedback at he
  cases hrev : (((pend msg.story_id).getD {}).set role msg.payload).reviewer with
  | none =>
    simp only [hrev] at he
    simp at he
    rw [he]
    exact effOK_activity cfg _ _ _
  | some rp =>
    cases hed : (((pend msg.story_id).getD {}).set role msg.payload).editor with
    | none =>
      simp only [hrev, hed] at he
      simp at he
      rw [he]
      exact effOK_activity cfg _ _ _
    | some ep =>
      simp only [hrev, hed] at he
      cases hst : store msg.story_id with
      | none =>
        simp only [get_story, hst] at he
        simp at he
      | some story =>
        simp only [get_story, hst] at he
        exact effok_evaluateAndDecide cfg gen story _ _ _ _ _
          (hstore _ _ hst) e (by simpa using he)

/-- Orchestrator effects obey the discipline whenever the store does and the
inbound message does. -/
lemma effok_orchestratorHandle (cfg : Config) (gen : String → String)
    (fresh : String) (store : Store) (pend : PendingMap) (msg : AgentMessage)
    (hstore : ∀ sid st, store sid = some st → StoryOK cfg st)
    (_hm : MsgOK cfg msg) :
    ∀ e ∈ (orchestratorHandle cfg gen fresh store pend msg).2, EffOK cfg e := by
  intro e he
  unfold orchestratorHandle at he
  split at he
  · simp [handleStartNewStory] at he
    rcases he with rfl | rfl
    · exact effOK_activity cfg _ _ _
    · exact effOK_enqueue_of_ne cfg _ _ (by simp [ACTION_GENERATE_PROMPT, ACTION_REVISE])
  · split at he
    · simp [handlePromptReady] at he
      rcases he with rfl | rfl
      · exact effOK_activity cfg _ _ _
      · exact effOK_enqueue_of_ne cfg _ _ (by simp [ACTION_WRITE_DRAFT, ACTION_REVISE])
    · split at he
      · unfold handleDraftReady at he
        split at he
        · simp at he
          rw [he]
          exact effOK_logError cfg _ _
        · rename_i story hst
          simp at he
          rcases he with rfl | he
          · exact effOK_save cfg _ (storyOK_set_status cfg story _ (hstore _ _ hst))
          · exact effok_sendForReview cfg cfg pend msg.story_id _ e he
      · split at he
        · unfold handleReviewComplete at he
          split at he
          · exact effok_parallelFeedback cfg gen store pend msg Role.reviewer hstore e he
          · simp at he
            rcases he with rfl | rfl
            · exact effOK_activity cfg _ _ _
            · exact effOK_enqueue_of_ne cfg _ _ (by simp [ACTION_EDIT, ACTION_REVISE])
        · split at he
          · unfold handleEditComplete at he
            split at he
            · exact effok_parallelFeedback cfg gen store pend msg Role.editor hstore e he
            · split at he
              · simp at he
              · rename_i story hst
                exact effok_evaluateAndDecide cfg gen story _ _ _ _ _
                  (hstore _ _ hst) e (by simpa using he)
          · split at he
            · unfold handleRevisionReady at he
              split at he
              · simp at he
                rw [he]
                exact effOK_logError cfg _ _
              · rename_i story hst
                simp at he
                rcases he with rfl | he
                · exact effOK_save cfg _ (storyOK_set_status cfg story _ (hstore _ _ hst))
                · exact effok_sendForReview cfg cfg pend msg.story_id _ e he
            · split at he
              · unfold handleCoverReady at he
                split at he
                · simp at he
                  rw [he]
                  exact effOK_logError cfg _ _
                · rename_i story hst
                  simp [publishStory] at he
                  rcases he with rfl | rfl | rfl
                  · exact effOK_activity cfg _ _ _
                  · exact effOK_save cfg _ (storyOK_set_status cfg story _ (hstore _ _ hst))
                  · exact effOK_activity cfg _ _ _
              · simp at he
                rw [he]
                exact effOK_logWarning cfg _ _

/-- Writer effects obey the discipline: the only save that changes the
revision bookkeeping is the revise path, which sets `revision_count` to a
round an in-flight revise message carried, and such messages carry rounds
strictly below the cap. -/
lemma effok_writerHandle (cfg : Config) (gen : String → String)
    (store : Store) (msg : AgentMessage)
    (hstore : ∀ sid st, store sid = some st → StoryOK cfg st)
    (hm : MsgOK cfg msg) :
    ∀ e ∈ writerHandle gen store msg, EffOK cfg e := by
  intro e he
  unfold writerHandle at he
  split at he
  · unfold writeDraft at he
    cases hst : get_story store msg.story_id with
    | none =>
      simp only [hst] at he
      simp at he
      rcases he with rfl | rfl
      · exact effOK_activity cfg _ _ _
      · exact effOK_logError cfg _ _
    | some story =>
      simp only [hst] at he
      cases hpr : story.prompt with
      | none =>
        simp only [hpr] at he
        simp at he
        rcases he with rfl | rfl
        · exact effOK_activity cfg _ _ _
        · exact effOK_logError cfg _ _
      | some prompt =>
        simp only [hpr] at he
        simp only [List.mem_cons, List.not_mem_nil, or_false] at he
        rcases he with rfl | rfl | rfl | rfl
        · exact effOK_activity cfg _ _ _
        · obtain ⟨ha, hb⟩ := hstore msg.story_id story hst
          exact effOK_save cfg _ ⟨ha, hb⟩
        · exact effOK_activity cfg _ _ _
        · exact effOK_enqueue_of_ne cfg _ _ (by simp [ACTION_DRAFT_READY, ACTION_REVISE])
  · split at he
    · rename_i hnw hrv
      unfold writerRevise at he
      cases hst : get_story store msg.story_id with
      | none =>
        simp only [hst] at he
        simp at he
        rcases he with rfl | rfl
        · exact effOK_activity cfg _ _ _
        · exact effOK_logError cfg _ _
      | some story =>
        simp only [hst] at he
        obtain ⟨r, hr, hlt⟩ := hm hrv
        simp only [List.mem_cons, List.not_mem_nil, or_false] at he
        rcases he with rfl | rfl | rfl | rfl
        · exact effOK_activity cfg _ _ _
        · refine effOK_save cfg _ ⟨?_, ?_⟩
          · simp [hr]
            have h2 := (hstore _ _ hst).2
            omega
          · exact (hstore _ _ hst).2
        · exact effOK_activity cfg _ _ _
        · exact effOK_enqueue_of_ne cfg _ _ (by simp [ACTION_REVISION_READY, ACTION_REVISE])
    · simp at he
      rw [he]
      exact effOK_logWarning cfg _ _

/-- Reviewer effects obey the discipline (feedback appends leave the
revision bookkeeping untouched). -/
lemma effok_reviewerHandle (cfg : Config) (gen : String → String)
    (store : Store) (msg : AgentMessage)
    (hstore : ∀ sid st, store sid = some st → StoryOK cfg st) :
    ∀ e ∈ reviewerHandle gen store msg, EffOK cfg e := by
  intro e he
  unfold reviewerHandle at he
  split at he
  · simp at he
    rw [he]
    exact effOK_logWarning cfg _ _
  · cases hst : get_story store msg.story_id with
    | none =>
      simp only [hst] at he
      simp at he
      rcases he with rfl | rfl
      · exact effOK_activity cfg _ _ _
      · exact effOK_logError cfg _ _
    | some story =>
      simp only [hst] at he
      simp only [List.mem_cons, List.not_mem_nil, or_false] at he
      rcases he with rfl | rfl | rfl | rfl
      · exact effOK_activity cfg _ _ _
      · obtain ⟨ha, hb⟩ := hstore msg.story_id story hst
        exact effOK_save cfg _ ⟨ha, hb⟩
      · exact effOK_activity cfg _ _ _
      · exact effOK_enqueue_of_ne cfg _ _ (by simp [ACTION_REVIEW_COMPLETE, ACTION_REVISE])

/-- Editor effects obey the discipline. -/
lemma effok_editorHandle (cfg : Config) (gen : String → String)
    (store : Store) (msg : AgentMessage)
    (hstore : ∀ sid st, store sid = some st → StoryOK cfg st) :
    ∀ e ∈ editorHandle gen store msg, EffOK cfg e := by
  intro e he
  unfold editorHandle at he
  split at he
  · simp at he
    rw [he]
    exact effOK_logWarning cfg _ _
  · cases hst : get_story store msg.story_id with
    | none =>
      simp only [hst] at he
      simp at he
      rcases he with rfl | rfl
      · exact effOK_activity cfg _ _ _
      · exact effOK_logError cfg _ _
    | some story =>
      simp only [hst] at he
      simp only [List.mem_cons, List.not_mem_nil, or_false] at he
      rcases he with rfl | rfl | rfl | rfl
      · exact effOK_activity cfg _ _ _
      · obtain ⟨ha, hb⟩ := hstore msg.story_id story hst
        exact effOK_save cfg _ ⟨ha, hb⟩
      · exact effOK_activity cfg _ _ _
      · exact effOK_enqueue_of_ne cfg _ _ (by simp [ACTION_EDIT_COMPLETE, ACTION_REVISE])

/-- Prompt-generator effects obey the discipline: the freshly created story
has `revision_count` 0 and the configured cap. -/
lemma effok_promptGenHandle (cfg : Config) (gen : String → String)
    (genreName genreDesc theme : String) (twc : Nat) (msg : AgentMessage) :
    ∀ e ∈ promptGenHandle cfg gen genreName genreDesc theme twc msg,
      EffOK cfg e := by
  intro e he
  unfold promptGenHandle at he
  split at he
  · simp at he
    rw [he]
    exact effOK_logWarning cfg _ _
  · simp at he
    rcases he with rfl | rfl | rfl | rfl
    · exact effOK_activity cfg _ _ _
    · exact effOK_save cfg _ ⟨Nat.zero_le _, rfl⟩
    · exact effOK_activity cfg _ _ _
    · exact effOK_enqueue_of_ne cfg _ _ (by simp [ACTION_PROMPT_READY, ACTION_REVISE])

/-- Cover-designer effects obey the discipline. -/
lemma effok_coverHandle (cfg : Config) (gen extractSvg : String → String)
    (store : Store) (msg : AgentMessage)
    (hstore : ∀ sid st, store sid = some st → StoryOK cfg st) :
    ∀ e ∈ coverHandle gen extractSvg store msg, EffOK cfg e := by
  intro e he
  unfold coverHandle at he
  split at he
  · simp at he
    rw [he]
    exact effOK_logWarning cfg _ _
  · cases hst : get_story store msg.story_id with
    | none =>
      simp only [hst] at he
      simp at he
      rcases he with rfl | rfl
      · exact effOK_activity cfg _ _ _
      · exact effOK_logError cfg _ _
    | some story =>
      simp only [hst] at he
      simp only [List.mem_cons, List.not_mem_nil, or_false] at he
      rcases he with rfl | rfl | rfl | rfl
      · exact effOK_activity cfg _ _ _
      · obtain ⟨ha, hb⟩ := hstore msg.story_id story hst
        exact effOK_save cfg _ ⟨ha, hb⟩
      · exact effOK_activity cfg _ _ _
      · exact effOK_enqueue_of_ne cfg _ _ (by simp [ACTION_COVER_READY, ACTION_REVISE])

/-- Whatever queue a message is popped from, the handling agent emits only
discipline-respecting effects. -/
lemma effok_dispatch (cfg : Config) (o : Oracle) (store : Store)
    (pend : PendingMap) (q : String) (m : AgentMessage)
    (hstore : ∀ sid st, store sid = some st → StoryOK cfg st)
    (hm : MsgOK cfg m) :
    ∀ e ∈ (dispatch cfg o store pend q m).2, EffOK cfg e := by
  intro e he
  unfold dispatch at he
  split at he
  · exact effok_orchestratorHandle cfg o.gen o.fresh store pend m hstore hm e he
  · split at he
    · exact effok_promptGenHandle cfg o.gen o.genreName o.genreDesc o.theme o.twc m e (by simpa using he)
    · split at he
      · exact effok_writerHandle cfg o.gen store m hstore hm e (by simpa using he)
      · split at he
        · exact effok_reviewerHandle cfg o.gen store m hstore e (by simpa using he)
        · split at he
          · exact effok_editorHandle cfg o.gen store m hstore e (by simpa using he)
          · split at he
            · exact effok_coverHandle cfg o.gen o.extractSvg store m hstore e (by simpa using he)
            · simp at he

/-- Interpreting a list of discipline-respecting effects preserves the
store-side invariant and enqueues only discipline-respecting messages. -/
lemma applyEffects_inv (cfg : Config) :
    ∀ (effs : List Effect) (store : Store),
      (∀ e ∈ effs, EffOK cfg e) →
      (∀ sid st, store sid = some st → StoryOK cfg st) →
      (∀ sid st, (applyEffects store effs).1 sid = some st → StoryOK cfg st) ∧
      (∀ p ∈ (applyEffects store effs).2, MsgOK cfg p.2) := by
  intro effs
  induction effs with
  | nil =>
    intro store _ hstore
    exact ⟨hstore, by simp [applyEffects]⟩
  | cons e rest ih =>
    intro store hok hstore
    have hrest : ∀ x ∈ rest, EffOK cfg x := fun x hx => hok x (by simp [hx])
    cases e with
    | save st =>
      have hst : StoryOK cfg st := hok (Effect.save st) (by simp)
      have hstore2 : ∀ sid st2,
          (fun s => if s = st.story_id then some st else store s) sid = some st2 →
          StoryOK cfg st2 := by
        intro sid st2 h2
        by_cases hc : sid = st.story_id
        · simp [hc] at h2
          rw [← h2]
          exact hst
        · simp [hc] at h2
          exact hstore sid st2 h2
      have := ih (fun s => if s = st.story_id then some st else store s)
        hrest hstore2
      simpa [applyEffects] using this
    | enqueue q m =>
      have hmm : MsgOK cfg m := hok (Effect.enqueue q m) (by simp)
      have := ih store hrest hstore
      refine ⟨by simpa [applyEffects] using this.1, ?_⟩
      intro p hp
      simp only [applyEffects, List.mem_cons] at hp
      rcases hp with rfl | hp
      · exact hmm
      · exact this.2 p hp
    | logError a b =>
      have := ih store hrest hstore
      simpa [applyEffects] using this
    | logWarning a b =>
      have := ih store hrest hstore
      simpa [applyEffects] using this
    | activity a b c =>
      have := ih store hrest hstore
      simpa [applyEffects] using this

/-- One pipeline step preserves the inductive invariant. -/
lemma step_inv (cfg : Config) (s s2 : SysState)
    (h : Inv cfg s) (hs : Step cfg s s2) : Inv cfg s2 := by
  obtain ⟨o, pre, post, q, m, hmsgs, rfl⟩ := hs
  obtain ⟨hstore, hmsg⟩ := h
  have hm : MsgOK cfg m := by
    refine hmsg (q, m) ?_
    rw [hmsgs]
    simp
  have heff := effok_dispatch cfg o s.store s.pend q m hstore hm
  have happ := applyEffects_inv cfg (dispatch cfg o s.store s.pend q m).2
    s.store heff hstore
  constructor
  · intro sid st hsid
    exact happ.1 sid st hsid
  · intro p hp
    simp only [stepState, List.mem_append] at hp
    rcases hp with hp | hp
    · refine hmsg p ?_
      rw [hmsgs]
      rcases hp with h1 | h1 <;> simp [h1]
    · exact happ.2 p hp

/-- Initial states satisfy the inductive invariant. -/
lemma init_inv (cfg : Config) (s : SysState) (h : Init s) : Inv cfg s := by
  obtain ⟨hstore, hmsg⟩ := h
  constructor
  · intro sid st hsid
    rw [hstore sid] at hsid
    exact absurd hsid (by simp)
  · intro p hp
    intro hc
    have := (hmsg p hp).2
    rw [hc] at this
    exact absurd this (by simp [ACTION_REVISE, ACTION_START_NEW_STORY])

/-- Every reachable state satisfies the inductive invariant. -/
lemma reachable_inv (cfg : Config) (s0 s : SysState)
    (h0 : Inv cfg s0) (hr : Reachable cfg s0 s) : Inv cfg s := by
  induction hr with
  | refl => exact h0
  | tail hab hbc ih =>
    exact step_inv cfg _ _ ih hbc

/-- C7: in every state of the pipeline reachable from an initial state
(empty store, only start triggers in flight), every stored story satisfies
`revision_count ≤ max_revisions`: stories are created with count 0, the
writer only ever sets the count to the round carried by a revise message,
and revise messages are emitted only for rounds strictly below the cap. -/
theorem c7_revision_count_le_cap (cfg : Config) (s0 s : SysState)
    (h0 : Init s0) (hr : Reachable cfg s0 s) (sid : String) (st : Story)
    (hsid : s.store sid = some st) :
    st.revision_count ≤ st.max_revisions :=
  ((reachable_inv cfg s0 s (init_inv cfg s0 h0) hr).1 sid st hsid).1

/-- Concrete oracle for the reachability witness. -/
def oracle0 : Oracle :=
  { gen := gen1, extractSvg := fun s => s, fresh := "fresh",
    genreName := "scifi", genreDesc := "d", theme := "t", twc := 100 }

/-- Concrete start trigger. -/
def startMsg0 : AgentMessage :=
  { story_id := "s1", action := ACTION_START_NEW_STORY }

/-- Concrete initial state: empty store, one start trigger in flight. -/
def sys0 : SysState :=
  { store := fun _ => none, pend := pend0,
    msgs := [(QUEUE_ORCHESTRATOR, startMsg0)] }

/-- State after the orchestrator handles the start trigger. -/
def sys1 : SysState :=
  stepState {} oracle0 sys0.store sys0.pend QUEUE_ORCHESTRATOR startMsg0 []

/-- The generate-prompt message the orchestrator emitted. -/
def genMsg0 : AgentMessage :=
  { story_id := "s1", action := ACTION_GENERATE_PROMPT,
    source := "orchestrator", target := "prompt_generator" }

/-- State after the prompt generator creates and saves the story. -/
def sys2 : SysState :=
  stepState {} oracle0 sys1.store sys1.pend QUEUE_PROMPT_GENERATOR genMsg0 []

/-- The story the prompt generator persisted in `sys2`. -/
def storyGen : Story :=
  { story_id := "s1", status := StoryStatus.PROMPT_CREATED,
    prompt := some { genre := "scifi", theme := "t", setting := "summary",
                     characters := "", target_word_count := 100,
                     additional_instructions := "" },
    max_revisions := 3 }

/-- Witness for C7: after two concrete steps from an initial state the
stored story satisfies the invariant. -/
theorem c7_revision_count_le_cap_witness :
    storyGen.revision_count ≤ storyGen.max_revisions :=
  c7_revision_count_le_cap {} sys0 sys2
    ⟨fun _ => rfl, by
      intro p hp
      simp [sys0] at hp
      rw [hp]
      exact ⟨rfl, rfl⟩⟩
    (Relation.ReflTransGen.head
      ⟨oracle0, [], [], QUEUE_ORCHESTRATOR, startMsg0, rfl, rfl⟩
      (Relation.ReflTransGen.single
        ⟨oracle0, [], [], QUEUE_PROMPT_GENERATOR, genMsg0, by decide, rfl⟩))
    "s1" storyGen (by decide)

end Multiagent
